import Mathlib

/-!
# Verification of the rbd-docker-plugin volume lifecycle engine

Shallow embedding of the Ceph RBD Docker volume plugin driver
(`driver.go`, current revision: `cephRBDVolumeDriver` keyed on
mountpoint with client `ID` tracking, plus the shell utilities in
`utils.go`).  External effects (the `rbd` CLI, `blkid`, `mount`,
`umount`, `xfs_repair`, `os.MkdirAll`) are modelled by environments
that prescribe the result of each call site, and every driver
operation additionally returns the trace of block-operation calls it
issued, in issue order (Go `defer`red calls are issued in LIFO order
at function return and appear in the trace at that position).
-/

namespace RbdPlugin

/-- Go `error` values carried by shell helpers: either the typed
`ShTimeoutError` (whose `Error()` is the fixed timeout message) or any
other error, represented by its `Error()` string. -/
inductive ShErr where
  | timeout
  | other (msg : String)
deriving DecidableEq, Repr

/-- `err.Error()` for a shell error: `ShTimeoutError.Error()` returns
the fixed string from `utils.go`. -/
def shErrMessage : ShErr → String
  | .timeout => "Reached TIMEOUT on shell command"
  | .other msg => msg

/-! ## Name parser (`parseImagePoolNameSize`, `imageNameRegexp`)

The regexp `^(([-_.[:alnum:]]+)/)?([-_.[:alnum:]]+)(@([0-9]+))?$` is
compiled to a deterministic matcher: `/` and `@` are not in the
character class `[-_.[:alnum:]]`, so a match decomposes the input
uniquely and greediness is irrelevant. -/

/-- Characters of the POSIX class `[-_.[:alnum:]]` used for pool and
image names ( `[:alnum:]` is ASCII letters and digits). -/
def isWordChar (c : Char) : Bool :=
  c.isAlphanum || c == '-' || c == '_' || c == '.'

/-- Match the `<image>[@<size>]` tail of the name regexp against a
fragment containing no `/`.  Returns the image characters and the
optional size digits (submatches 3 and 5). -/
def matchTail (s : List Char) : Option (List Char × Option (List Char)) :=
  if s.takeWhile isWordChar = [] then none
  else if s.dropWhile isWordChar = [] then some (s.takeWhile isWordChar, none)
  else if (s.dropWhile isWordChar).head? = some '@' ∧
      (s.dropWhile isWordChar).tail ≠ [] ∧
      (s.dropWhile isWordChar).tail.all Char.isDigit then
    some (s.takeWhile isWordChar, some (s.dropWhile isWordChar).tail)
  else none

/-- Full matcher for `imageNameRegexp`: returns (pool submatch 2,
image submatch 3, size submatch 5), `none` when the regexp does not
match the whole input. -/
def matchImageName (s : List Char) :
    Option (Option (List Char) × List Char × Option (List Char)) :=
  if (s.dropWhile isWordChar).head? = some '/' then
    if s.takeWhile isWordChar = [] then none
    else (matchTail (s.dropWhile isWordChar).tail).map
      (fun t => (some (s.takeWhile isWordChar), t.1, t.2))
  else
    (matchTail s).map (fun t => (none, t.1, t.2))

/-- Numeric value of a digit string. -/
def digitsVal (l : List Char) : Int :=
  l.foldl (fun a c => a * 10 + ((c.toNat : Int) - 48)) 0

/-- Model of Go `strconv.Atoi` on a 64-bit platform: optional sign,
at least one digit, error (`none`) on any other character and on
values outside the `int64` range. -/
def goAtoi (s : List Char) : Option Int :=
  let sign : Int := if s.head? = some '-' then -1 else 1
  let digits := if s.head? = some '-' ∨ s.head? = some '+' then s.tail else s
  if digits = [] ∨ ¬ digits.all Char.isDigit then none
  else
    let v := sign * digitsVal digits
    if v < -(2 ^ 63) ∨ 2 ^ 63 - 1 < v then none else some v

/-- Daemon configuration fixed at start: package flag values and the
driver-struct fields the lifecycle code reads. -/
structure Config where
  pool : String
  root : String
  defaultImageSizeMB : Int
  defaultImageFSType : String
  canCreateVolumes : Bool
  removeActionFlag : String
  hostname : String
deriving DecidableEq, Repr

/-- `parseImagePoolNameSize`: match the name against the regexp; the
default pool replaces an empty pool submatch, `strconv.Atoi` is
applied to the size submatch with the default size on conversion
error. -/
def parseImagePoolNameSize (cfg : Config) (fullname : String) :
    Except String (String × String × Int) :=
  match matchImageName fullname.data with
  | none => .error ("Unable to parse image name: " ++ fullname)
  | some (p, i, z) =>
    let pool := match p with
      | some q => if q = [] then cfg.pool else String.mk q
      | none => cfg.pool
    let size : Int := match z with
      | some d =>
        if d = [] then cfg.defaultImageSizeMB
        else match goAtoi d with
          | some v => v
          | none => cfg.defaultImageSizeMB
      | none => cfg.defaultImageSizeMB
    .ok (pool, String.mk i, size)

example :
    parseImagePoolNameSize ⟨"rbd", "/r", 20480, "xfs", false, "ignore", "h"⟩ "foo"
      = .ok ("rbd", "foo", 20480) := rfl

example :
    parseImagePoolNameSize ⟨"rbd", "/r", 20480, "xfs", false, "ignore", "h"⟩
      "liverpool/foo@1024" = .ok ("liverpool", "foo", 1024) := rfl

example :
    parseImagePoolNameSize ⟨"rbd", "/r", 20480, "xfs", false, "ignore", "h"⟩ "foo@"
      = .error "Unable to parse image name: foo@" := rfl

example :
    parseImagePoolNameSize ⟨"rbd", "/r", 20480, "xfs", false, "ignore", "h"⟩
      "es-data1_v2.3" = .ok ("rbd", "es-data1_v2.3", 20480) := rfl

example :
    parseImagePoolNameSize ⟨"rbd", "/r", 20480, "xfs", false, "ignore", "h"⟩
      "foo@92233720368547758070" = .ok ("rbd", "foo", 20480) := rfl

/-! ## Spec-side grammar for the volume name

Modelled from the spec's words: accepted grammar
`[<pool>/]<image>[@<size>]` where pool and image match
`[-_.[:alnum:]]+` and size is a decimal digit string.  Used only to
compare against the source-derived matcher. -/

/-- A nonempty string of `[-_.[:alnum:]]` characters. -/
def wordStr (t : List Char) : Bool := !t.isEmpty && t.all isWordChar

/-- A nonempty string of decimal digits. -/
def digitStr (t : List Char) : Bool := !t.isEmpty && t.all Char.isDigit

/-- The optional pool component together with its `/` separator. -/
def poolPart : Option (List Char) → List Char
  | some q => q ++ ['/']
  | none => []

/-- The optional size component together with its `@` separator. -/
def sizePart : Option (List Char) → List Char
  | some d => '@' :: d
  | none => []

/-- Well-formedness of the optional pool component. -/
def optWord : Option (List Char) → Bool
  | some q => wordStr q
  | none => true

/-- Well-formedness of the optional size component. -/
def optDigits : Option (List Char) → Bool
  | some d => digitStr d
  | none => true

/-- `s` decomposes as `[<pool>/]<image>[@<size>]` with the given
components (the spec's grammar). -/
def SpecDecomp (s : List Char) (p : Option (List Char)) (i : List Char)
    (z : Option (List Char)) : Prop :=
  optWord p = true ∧ wordStr i = true ∧ optDigits z = true ∧
    s = poolPart p ++ (i ++ sizePart z)

instance instDecidableSpecDecomp (s : List Char) (p : Option (List Char))
    (i : List Char) (z : Option (List Char)) : Decidable (SpecDecomp s p i z) := by
  unfold SpecDecomp
  infer_instance

/-- `s` matches the spec's grammar. -/
def SpecGrammar (s : List Char) : Prop := ∃ p i z, SpecDecomp s p i z

/-- Pool value the spec promises: the pool component, or the
configured default pool when omitted. -/
def specPool (cfg : Config) : Option (List Char) → String
  | some q => String.mk q
  | none => cfg.pool

/-- Size value the spec promises: the converted size digits, or the
configured default size when omitted or unconvertible. -/
def specSize (cfg : Config) : Option (List Char) → Int
  | some d => match goAtoi d with
    | some v => v
    | none => cfg.defaultImageSizeMB
  | none => cfg.defaultImageSizeMB

/-! ### takeWhile / dropWhile facts -/

theorem takeWhile_all_self {p : Char → Bool} {l : List Char}
    (h : l.all p = true) : l.takeWhile p = l := by
  induction l with
  | nil => rfl
  | cons a as ih =>
    simp only [List.all_cons, Bool.and_eq_true] at h
    rw [List.takeWhile_cons, if_pos h.1, ih h.2]

theorem dropWhile_all_nil {p : Char → Bool} {l : List Char}
    (h : l.all p = true) : l.dropWhile p = [] := by
  induction l with
  | nil => rfl
  | cons a as ih =>
    simp only [List.all_cons, Bool.and_eq_true] at h
    rw [List.dropWhile_cons, if_pos h.1]
    exact ih h.2

theorem takeWhile_append_stop {p : Char → Bool} {l : List Char} {x : Char}
    (r : List Char) (hl : l.all p = true) (hx : p x = false) :
    (l ++ x :: r).takeWhile p = l := by
  induction l with
  | nil =>
    rw [List.nil_append, List.takeWhile_cons, if_neg]
    simp [hx]
  | cons a as ih =>
    simp only [List.all_cons, Bool.and_eq_true] at hl
    rw [List.cons_append, List.takeWhile_cons, if_pos hl.1, ih hl.2]

theorem dropWhile_append_stop {p : Char → Bool} {l : List Char} {x : Char}
    (r : List Char) (hl : l.all p = true) (hx : p x = false) :
    (l ++ x :: r).dropWhile p = x :: r := by
  induction l with
  | nil =>
    rw [List.nil_append, List.dropWhile_cons, if_neg]
    simp [hx]
  | cons a as ih =>
    simp only [List.all_cons, Bool.and_eq_true] at hl
    rw [List.cons_append, List.dropWhile_cons, if_pos hl.1]
    exact ih hl.2

theorem all_takeWhile (p : Char → Bool) (l : List Char) :
    (l.takeWhile p).all p = true := by
  induction l with
  | nil => rfl
  | cons a as ih =>
    rw [List.takeWhile_cons]
    by_cases h : p a = true
    · rw [if_pos h, List.all_cons, h, ih]
      rfl
    · rw [if_neg h]
      rfl

/-- The decomposition produced by `takeWhile`/`dropWhile`. -/
theorem takeWhile_dropWhile_eq (p : Char → Bool) (l : List Char) :
    l = l.takeWhile p ++ l.dropWhile p :=
  (List.takeWhile_append_dropWhile (p := p) (l := l)).symm

theorem wordStr_iff {t : List Char} :
    wordStr t = true ↔ t ≠ [] ∧ t.all isWordChar = true := by
  cases t <;> simp [wordStr]

theorem digitStr_iff {t : List Char} :
    digitStr t = true ↔ t ≠ [] ∧ t.all Char.isDigit = true := by
  cases t <;> simp [digitStr]

/-! ### Matcher soundness and completeness w.r.t. the grammar -/

theorem matchTail_sound {u i : List Char} {z : Option (List Char)}
    (h : matchTail u = some (i, z)) :
    wordStr i = true ∧ optDigits z = true ∧ u = i ++ sizePart z := by
  unfold matchTail at h
  split_ifs at h with h1 h2 h3
  · simp only [Option.some.injEq, Prod.mk.injEq] at h
    obtain ⟨rfl, rfl⟩ := h
    refine ⟨wordStr_iff.mpr ⟨h1, all_takeWhile _ _⟩, rfl, ?_⟩
    have hu := takeWhile_dropWhile_eq isWordChar u
    rw [h2, List.append_nil] at hu
    simpa [sizePart] using hu
  · simp only [Option.some.injEq, Prod.mk.injEq] at h
    obtain ⟨rfl, rfl⟩ := h
    obtain ⟨ha, hb, hc⟩ := h3
    refine ⟨wordStr_iff.mpr ⟨h1, all_takeWhile _ _⟩,
      by simpa [optDigits] using digitStr_iff.mpr ⟨hb, hc⟩, ?_⟩
    have hu := takeWhile_dropWhile_eq isWordChar u
    have hd : u.dropWhile isWordChar = '@' :: (u.dropWhile isWordChar).tail := by
      cases hcons : u.dropWhile isWordChar with
      | nil => exact absurd hcons h2
      | cons a t =>
        simp only [hcons, List.head?_cons, Option.some.injEq] at ha
        rw [ha]
        rfl
    rw [hd] at hu
    simpa [sizePart] using hu

theorem matchTail_complete {i : List Char} {z : Option (List Char)}
    (hi : wordStr i = true) (hz : optDigits z = true) :
    matchTail (i ++ sizePart z) = some (i, z) := by
  obtain ⟨hine, hiall⟩ := wordStr_iff.mp hi
  cases z with
  | none =>
    have hb : i ++ sizePart none = i := by simp [sizePart]
    unfold matchTail
    rw [hb, takeWhile_all_self hiall, dropWhile_all_nil hiall,
      if_neg hine, if_pos rfl]
  | some d =>
    obtain ⟨hdne, hdall⟩ := digitStr_iff.mp (by simpa [optDigits] using hz)
    have hat : isWordChar '@' = false := by decide
    have hb : i ++ sizePart (some d) = i ++ '@' :: d := rfl
    unfold matchTail
    rw [hb, takeWhile_append_stop d hiall hat, dropWhile_append_stop d hiall hat,
      if_neg hine, if_neg (by simp), if_pos (by exact ⟨rfl, by simpa using hdne, hdall⟩)]
    rfl

theorem matchImageName_sound {s i : List Char} {p z : Option (List Char)}
    (h : matchImageName s = some (p, i, z)) : SpecDecomp s p i z := by
  unfold matchImageName at h
  split_ifs at h with h1 h2
  · cases hmt : matchTail (s.dropWhile isWordChar).tail with
    | none => rw [hmt] at h; exact absurd h (by simp)
    | some t =>
      rw [hmt] at h
      obtain ⟨i2, z2⟩ := t
      simp only [Option.map_some', Option.some.injEq, Prod.mk.injEq] at h
      obtain ⟨rfl, rfl, rfl⟩ := h
      obtain ⟨hia, hza, hu⟩ := matchTail_sound hmt
      have hcons : s.dropWhile isWordChar =
          '/' :: (s.dropWhile isWordChar).tail := by
        cases hc : s.dropWhile isWordChar with
        | nil => rw [hc] at h1; exact absurd h1 (by simp)
        | cons a t2 =>
          simp only [hc, List.head?_cons, Option.some.injEq] at h1
          rw [h1]
          rfl
      refine ⟨?_, hia, hza, ?_⟩
      · simpa [optWord] using wordStr_iff.mpr ⟨h2, all_takeWhile isWordChar s⟩
      · have hs := takeWhile_dropWhile_eq isWordChar s
        rw [hcons, hu] at hs
        simpa [poolPart] using hs
  · cases hmt : matchTail s with
    | none => rw [hmt] at h; exact absurd h (by simp)
    | some t =>
      rw [hmt] at h
      obtain ⟨i2, z2⟩ := t
      simp only [Option.map_some', Option.some.injEq, Prod.mk.injEq] at h
      obtain ⟨rfl, rfl, rfl⟩ := h
      obtain ⟨hia, hza, hu⟩ := matchTail_sound hmt
      exact ⟨by simp [optWord], hia, hza, by simpa [poolPart] using hu⟩

theorem matchImageName_complete {s i : List Char} {p z : Option (List Char)}
    (h : SpecDecomp s p i z) : matchImageName s = some (p, i, z) := by
  obtain ⟨hp, hi, hz, rfl⟩ := h
  obtain ⟨hine, hiall⟩ := wordStr_iff.mp hi
  cases p with
  | none =>
    have hbody : poolPart none ++ (i ++ sizePart z) = i ++ sizePart z := by
      simp [poolPart]
    rw [hbody]
    have hslash : ((i ++ sizePart z).dropWhile isWordChar).head? ≠ some '/' := by
      cases z with
      | none =>
        rw [show i ++ sizePart none = i from by simp [sizePart],
          dropWhile_all_nil hiall]
        simp
      | some d =>
        rw [show i ++ sizePart (some d) = i ++ '@' :: d from rfl,
          dropWhile_append_stop d hiall (by decide)]
        simp
    unfold matchImageName
    rw [if_neg hslash, matchTail_complete hi hz]
    rfl
  | some q =>
    obtain ⟨hqne, hqall⟩ := wordStr_iff.mp (by simpa [optWord] using hp)
    have hshape : poolPart (some q) ++ (i ++ sizePart z) =
        q ++ '/' :: (i ++ sizePart z) := by
      simp [poolPart]
    rw [hshape]
    have hslash : isWordChar '/' = false := by decide
    unfold matchImageName
    rw [takeWhile_append_stop _ hqall hslash, dropWhile_append_stop _ hqall hslash,
      if_pos (by simp), if_neg hqne, List.tail_cons, matchTail_complete hi hz]
    rfl

theorem parse_ok_of_decomp (cfg : Config) (s : String) {p : Option (List Char)}
    {i : List Char} {z : Option (List Char)} (hd : SpecDecomp s.data p i z) :
    parseImagePoolNameSize cfg s = .ok (specPool cfg p, String.mk i, specSize cfg z) := by
  have hm := matchImageName_complete hd
  obtain ⟨hp, hi, hz, _⟩ := hd
  unfold parseImagePoolNameSize
  rw [hm]
  cases p with
  | none =>
    cases z with
    | none => rfl
    | some d =>
      obtain ⟨hdne, _⟩ := digitStr_iff.mp (by simpa [optDigits] using hz)
      simp [specPool, specSize, hdne]
  | some q =>
    obtain ⟨hqne, _⟩ := wordStr_iff.mp (by simpa [optWord] using hp)
    cases z with
    | none => simp [specPool, specSize, hqne]
    | some d =>
      obtain ⟨hdne, _⟩ := digitStr_iff.mp (by simpa [optDigits] using hz)
      simp [specPool, specSize, hqne, hdne]

/-- C5: `parseImagePoolNameSize` returns a (pool, image, size) triple
exactly when the input matches the grammar `[<pool>/]<image>[@<size>]`
(pool and image over `[-_.[:alnum:]]+`, size a decimal digit string),
and fails with the parse error otherwise; an omitted pool yields the
configured default pool, and size digits that fail `strconv.Atoi`
conversion yield the configured default size with no error. -/
theorem parseImagePoolNameSize_correct (cfg : Config) (s : String) :
    (parseImagePoolNameSize cfg s = .error ("Unable to parse image name: " ++ s)
      ↔ ¬ SpecGrammar s.data)
    ∧ ∀ p i z, SpecDecomp s.data p i z →
        parseImagePoolNameSize cfg s
          = .ok (specPool cfg p, String.mk i, specSize cfg z) := by
  constructor
  · constructor
    · intro he hg
      obtain ⟨p, i, z, hd⟩ := hg
      rw [parse_ok_of_decomp cfg s hd] at he
      exact Except.noConfusion he
    · intro hg
      cases hm : matchImageName s.data with
      | none =>
        unfold parseImagePoolNameSize
        rw [hm]
      | some t =>
        obtain ⟨p, i, z⟩ := t
        exact absurd ⟨p, i, z, matchImageName_sound hm⟩ hg
  · intro p i z hd
    exact parse_ok_of_decomp cfg s hd

/-- Witness for C5: the spec's concrete scenario
`parse("liverpool/foo@1024") = ("liverpool", "foo", 1024)`, obtained
by instantiating the grammar theorem at its decomposition. -/
theorem parseImagePoolNameSize_correct_witness :
    parseImagePoolNameSize
        ⟨"rbd", "/var/lib/docker/volumes/rbd", 20480, "xfs", false, "ignore", "host1"⟩
        "liverpool/foo@1024"
      = .ok ("liverpool", "foo", 1024) :=
  (parseImagePoolNameSize_correct
      ⟨"rbd", "/var/lib/docker/volumes/rbd", 20480, "xfs", false, "ignore", "host1"⟩
      "liverpool/foo@1024").2
    (some "liverpool".data) "foo".data (some "1024".data) (by decide)

/-! ## Data model: volumes, registry, block-operation trace -/

/-- `Volume`: the driver's record of a live mount (`driver.go`). -/
structure Volume where
  Name : String
  Device : String
  Locker : String
  FStype : String
  Pool : String
  ID : String
deriving DecidableEq, Repr

/-- The in-memory registry `d.volumes`, a map keyed on mountpoint,
modelled as an association list. -/
abbrev Registry := List (String × Volume)

/-- Go map lookup `d.volumes[mount]`. -/
def regFind : Registry → String → Option Volume
  | [], _ => none
  | (k, v) :: rest, key => if k = key then some v else regFind rest key

/-- Go map `delete(d.volumes, mount)`. -/
def regErase : Registry → String → Registry
  | [], _ => []
  | (k, v) :: rest, key =>
    if k = key then regErase rest key else (k, v) :: regErase rest key

/-- Go map assignment `d.volumes[mount] = &v`. -/
def regInsert (st : Registry) (key : String) (v : Volume) : Registry :=
  (key, v) :: regErase st key

/-- One call to the block-device control plane or the host (the
BlockOps vocabulary).  Traces list these in the order the driver
issues them. -/
inductive BOp where
  | imageExists (pool image : String)
  | createImage (pool image : String) (size : Int) (fstype : String)
  | removeImage (pool image : String)
  | renameImage (pool image newname : String)
  | lockImage (pool image : String)
  | unlockImage (pool image locker : String)
  | mapImage (pool image : String)
  | unmapDevice (device : String)
  | detectFSType (device : String)
  | xfsRepairDryRun (device : String)
  | mkfs (device : String)
  | mkdirAll (path : String)
  | mountDevice (fstype device mountdir : String)
  | unmountDevice (device : String)
deriving DecidableEq, Repr

/-- `mountpoint`: `filepath.Join(d.root, pool, name)` (modelled as
plain `/`-joining; the driver only ever uses the result as a map
key and directory path). -/
def mountpoint (root pool name : String) : String :=
  root ++ "/" ++ pool ++ "/" ++ name

/-- `mapImage` device synthesis: if the `rbd map` output is empty with
no error, assume the default `/dev/rbd/<pool>/<image>` device path. -/
def mapImageDevice (out pool image : String) : String :=
  if out = "" then "/dev/rbd/" ++ pool ++ "/" ++ image else out

/-- `deviceType`: run `blkid`, fail on error or empty output. -/
def deviceType (blkidRes : String × Option ShErr) : String × Option String :=
  match blkidRes with
  | (_, some e) => ("", some (shErrMessage e))
  | (b, none) =>
    if b = "" then ("", some "Unable to determine device fs type from blkid")
    else (b, none)

/-! ## Filesystem verification (`verifyDeviceFilesystem`,
`attemptLimitedXFSRepair`) -/

/-- Prescribed results of the shell commands issued while verifying a
filesystem: the first `xfs_repair -n` probe, the repair `mount`, the
repair `umount`, and the second probe. -/
structure VerifyEnv where
  probe1 : Option ShErr
  repairMount : Option ShErr
  repairUnmount : Option ShErr
  probe2 : Option ShErr
deriving DecidableEq, Repr

/-- `attemptLimitedXFSRepair`: mount, unmount, then re-run the
`xfs_repair -n` dry run and return its result. -/
def attemptLimitedXFSRepair (v : VerifyEnv) (fstype device mount : String) :
    Option ShErr × List BOp :=
  match v.repairMount with
  | some e => (some e, [.mountDevice fstype device mount])
  | none =>
    match v.repairUnmount with
    | some e => (some e, [.mountDevice fstype device mount, .unmountDevice device])
    | none =>
      (v.probe2,
        [.mountDevice fstype device mount, .unmountDevice device,
          .xfsRepairDryRun device])

/-- `verifyDeviceFilesystem`: only XFS is checked; a dry-run probe is
made, a `ShTimeoutError` from it is propagated, any other probe error
triggers the limited repair. -/
def verifyDeviceFilesystem (v : VerifyEnv) (device mount fstype : String) :
    Option ShErr × List BOp :=
  if fstype ≠ "xfs" then (none, [])
  else
    match v.probe1 with
    | none => (none, [.xfsRepairDryRun device])
    | some .timeout => (some .timeout, [.xfsRepairDryRun device])
    | some (.other _m) =>
      match attemptLimitedXFSRepair v fstype device mount with
      | (r, tr) => (r, .xfsRepairDryRun device :: tr)

/-! ## Mount -/

/-- Prescribed results of the external calls a `Mount` request makes,
one field per call site in `driver.go` `Mount`. -/
structure MountEnv where
  lockRes : Option ShErr
  mapRes : String × Option ShErr
  blkidRes : String × Option ShErr
  verify : VerifyEnv
  mkdirRes : Option String
  mountRes : Option ShErr
deriving DecidableEq, Repr

/-- The fstype `Mount` ends up using: `deviceType` result, or the
configured default on detection failure. -/
def mountFstype (cfg : Config) (env : MountEnv) : String :=
  match deviceType env.blkidRes with
  | (_, some _) => cfg.defaultImageFSType
  | (t, none) => t

/-- `cephRBDVolumeDriver.Mount`: parse, lock, map, detect fstype,
verify filesystem, make the mountpoint directory, mount, and register
the volume; on failure after a successful lock/map the deferred
compensations run in LIFO order (unlock, then unmap) before the error
returns. -/
def Mount (cfg : Config) (env : MountEnv) (st : Registry) (name id : String) :
    Except String String × Registry × List BOp :=
  match parseImagePoolNameSize cfg name with
  | .error e => (.error e, st, [])
  | .ok (pool, img, _) =>
    let mnt := mountpoint cfg.root pool img
    match env.lockRes with
    | some _ => (.error "Unable to get Exclusive Lock", st, [.lockImage pool img])
    | none =>
      let locker := cfg.hostname
      match env.mapRes with
      | (_, some _) =>
        (.error "Unable to map kernel device", st,
          [.lockImage pool img, .mapImage pool img, .unlockImage pool img locker])
      | (out, none) =>
        let device := mapImageDevice out pool img
        let fstype := mountFstype cfg env
        match verifyDeviceFilesystem env.verify device mnt fstype with
        | (vres, vtr) =>
          let base := [.lockImage pool img, .mapImage pool img,
            .detectFSType device] ++ vtr
          match vres with
          | some _ =>
            (.error "Image filesystem has errors, requires manual repairs", st,
              base ++ [.unlockImage pool img locker, .unmapDevice device])
          | none =>
            match env.mkdirRes with
            | some _ =>
              (.error "Unable to make mountdir", st,
                base ++ [.mkdirAll mnt, .unlockImage pool img locker,
                  .unmapDevice device])
            | none =>
              match env.mountRes with
              | some _ =>
                (.error "Unable to mount device", st,
                  base ++ [.mkdirAll mnt, .mountDevice fstype device mnt,
                    .unlockImage pool img locker, .unmapDevice device])
              | none =>
                (.ok mnt,
                  regInsert st mnt
                    ⟨img, device, locker, fstype, pool, id⟩,
                  base ++ [.mkdirAll mnt, .mountDevice fstype device mnt])

/-! ## Unmount -/

/-- Prescribed results of the external calls an `Unmount` request
makes: `umount`, `rbd unmap`, and the unlock procedure. -/
structure UnmountEnv where
  unmountRes : Option ShErr
  unmapRes : Option ShErr
  unlockRes : Option ShErr
deriving DecidableEq, Repr

/-- Tail of `Unmount` after the unmap step did not hit the busy
short-circuit: unlock, drop the registry entry, and join any
accumulated error messages. -/
def unmountFinish (env : UnmountEnv) (st : Registry) (mnt : String)
    (vol : Volume) (msgs : List String) :
    Except String Unit × Registry × List BOp :=
  let msgs2 := match env.unlockRes with
    | some _ => msgs ++ ["Error unlocking image"]
    | none => msgs
  ((if msgs2 = [] then .ok () else .error (String.intercalate ", " msgs2)),
    regErase st mnt,
    [.unmountDevice vol.Device, .unmapDevice vol.Device,
      .unlockImage vol.Pool vol.Name vol.Locker])

/-- `cephRBDVolumeDriver.Unmount`: parse, look up the registry (absent
→ silent success), check the client ID (mismatch → silent success),
then unmount, unmap (aborting right away if `rbd unmap` failed with
`exit status 16`), unlock, and drop the registry entry, accumulating
non-busy errors. -/
def Unmount (cfg : Config) (env : UnmountEnv) (st : Registry)
    (name id : String) : Except String Unit × Registry × List BOp :=
  match parseImagePoolNameSize cfg name with
  | .error e => (.error e, st, [])
  | .ok (pool, img, _) =>
    let mnt := mountpoint cfg.root pool img
    match regFind st mnt with
    | none => (.ok (), st, [])
    | some vol =>
      if vol.ID ≠ id then (.ok (), st, [])
      else
        let msgs1 : List String := match env.unmountRes with
          | some _ => ["Error unmounting device"]
          | none => []
        match env.unmapRes with
        | some e =>
          if shErrMessage e = "exit status 16" then
            (.error (shErrMessage e), st,
              [.unmountDevice vol.Device, .unmapDevice vol.Device])
          else
            unmountFinish env st mnt vol
              (msgs1 ++ ["Error unmapping kernel device"])
        | none => unmountFinish env st mnt vol msgs1

/-! ## Image existence, Create, Remove, Get -/

/-- `rbdImageExists`: run `rbd info`; any error from the shell is
taken as the image not existing and is swallowed. -/
def rbdImageExists (infoRes : Except ShErr String) : Bool × Option ShErr :=
  match infoRes with
  | .error _ => (false, none)
  | .ok _ => (true, none)

/-- Prescribed results of the external calls of the `createRBDImage`
sub-procedure: `exec.LookPath("mkfs.<fstype>")`, `rbd create`, lock,
map, the `mkfs` shell call, unmap and unlock. -/
structure CreateImageEnv where
  lookPath : Option String
  createRes : Option ShErr
  lockRes : Option ShErr
  mapRes : String × Option ShErr
  mkfsRes : Option ShErr
  unmapRes : Option ShErr
  unlockRes : Option ShErr
deriving DecidableEq, Repr

/-- `createRBDImage`: check mkfs availability, create the image, lock
it temporarily, map it, run mkfs (deferred compensations run unlock
then unmap, in LIFO order), unmap, unlock.  Returns the error message
(`none` on success) and the issued calls. -/
def createRBDImage (env : CreateImageEnv) (cfg : Config)
    (pool name : String) (size : Int) (fstype : String) :
    Option String × List BOp :=
  match env.lookPath with
  | some e => (some ("Unable to find mkfs for " ++ fstype ++ " in PATH: " ++ e), [])
  | none =>
    match env.createRes with
    | some e => (some (shErrMessage e), [.createImage pool name size fstype])
    | none =>
      match env.lockRes with
      | some e =>
        (some (shErrMessage e),
          [.createImage pool name size fstype, .lockImage pool name])
      | none =>
        let locker := cfg.hostname
        match env.mapRes with
        | (_, some e) =>
          (some (shErrMessage e),
            [.createImage pool name size fstype, .lockImage pool name,
              .mapImage pool name, .unlockImage pool name locker])
        | (out, none) =>
          let device := mapImageDevice out pool name
          match env.mkfsRes with
          | some e =>
            (some (shErrMessage e),
              [.createImage pool name size fstype, .lockImage pool name,
                .mapImage pool name, .mkfs device,
                .unlockImage pool name locker, .unmapDevice device])
          | none =>
            match env.unmapRes with
            | some e =>
              (some (shErrMessage e),
                [.createImage pool name size fstype, .lockImage pool name,
                  .mapImage pool name, .mkfs device, .unmapDevice device])
            | none =>
              match env.unlockRes with
              | some e =>
                (some (shErrMessage e),
                  [.createImage pool name size fstype, .lockImage pool name,
                    .mapImage pool name, .mkfs device, .unmapDevice device,
                    .unlockImage pool name locker])
              | none =>
                (none,
                  [.createImage pool name size fstype, .lockImage pool name,
                    .mapImage pool name, .mkfs device, .unmapDevice device,
                    .unlockImage pool name locker])

/-- Options of a `docker volume create` request; the empty string is
Go's map default for an absent key. -/
structure CreateOpts where
  pool : String
  size : String
  fstype : String
deriving DecidableEq, Repr

/-- Prescribed results of the external calls a `Create` request makes. -/
structure CreateEnv where
  infoRes : Except ShErr String
  sub : CreateImageEnv
deriving Repr

/-- `cephRBDVolumeDriver.Create`/`createImage`: parse, overlay
options, return early when the mountpoint is already registered or
the image exists, fail with not-found when creation is disallowed,
otherwise run `createRBDImage`.  Never mounts, never touches the
registry. -/
def Create (cfg : Config) (env : CreateEnv) (st : Registry) (name : String)
    (opts : CreateOpts) : Except String Unit × Registry × List BOp :=
  match parseImagePoolNameSize cfg name with
  | .error e => (.error e, st, [])
  | .ok (pool0, img, size0) =>
    let pool := if opts.pool ≠ "" then opts.pool else pool0
    let size : Int := if opts.size ≠ "" then
        (match goAtoi opts.size.data with
          | some v => v
          | none => cfg.defaultImageSizeMB)
      else size0
    let fstype := if opts.fstype ≠ "" then opts.fstype else cfg.defaultImageFSType
    let mnt := mountpoint cfg.root pool img
    match regFind st mnt with
    | some _ => (.ok (), st, [])
    | none =>
      match rbdImageExists env.infoRes with
      | (_, some e) => (.error (shErrMessage e), st, [.imageExists pool img])
      | (ex, none) =>
        if ex then (.ok (), st, [.imageExists pool img])
        else if ¬ cfg.canCreateVolumes then
          (.error ("Ceph RBD Image not found: " ++ img), st,
            [.imageExists pool img])
        else
          match createRBDImage env.sub cfg pool img size fstype with
          | (some e, tr) =>
            (.error ("Unable to create Ceph RBD Image(" ++ img ++ "): " ++ e),
              st, .imageExists pool img :: tr)
          | (none, tr) => (.ok (), st, .imageExists pool img :: tr)

/-- Prescribed results of the external calls a `Remove` request makes. -/
structure RemoveEnv where
  infoRes : Except ShErr String
  lockRes : Option ShErr
  removeRes : Option ShErr
  renameRes : Option ShErr
  unlockRes : Option ShErr
deriving Repr

/-- `cephRBDVolumeDriver.Remove`: parse, require the image to exist,
lock it, then apply the configured remove action (`delete`, `rename`
to `zz_<name>`, or ignore); the deferred unlock is issued under the
new name exactly when the rename succeeded, and the registry entry is
dropped only on overall success. -/
def Remove (cfg : Config) (env : RemoveEnv) (st : Registry) (name : String) :
    Except String Unit × Registry × List BOp :=
  match parseImagePoolNameSize cfg name with
  | .error e => (.error e, st, [])
  | .ok (pool, img, _) =>
    let mnt := mountpoint cfg.root pool img
    match rbdImageExists env.infoRes with
    | (_, some e) => (.error (shErrMessage e), st, [.imageExists pool img])
    | (ex, none) =>
      if ¬ ex then
        (.error ("Ceph RBD Image not found: " ++ img), st,
          [.imageExists pool img])
      else
        match env.lockRes with
        | some _ =>
          (.error ("Unable to lock image for remove: " ++ img), st,
            [.imageExists pool img, .lockImage pool img])
        | none =>
          let locker := cfg.hostname
          if cfg.removeActionFlag = "delete" then
            match env.removeRes with
            | some e =>
              (.error ("Unable to remove Ceph RBD Image(" ++ img ++ "): "
                  ++ shErrMessage e), st,
                [.imageExists pool img, .lockImage pool img,
                  .removeImage pool img, .unlockImage pool img locker])
            | none =>
              (.ok (), regErase st mnt,
                [.imageExists pool img, .lockImage pool img,
                  .removeImage pool img, .unlockImage pool img locker])
          else if cfg.removeActionFlag = "rename" then
            match env.renameRes with
            | some e =>
              (.error ("Unable to rename with zz_ prefix: RBD Image("
                  ++ img ++ "): " ++ shErrMessage e), st,
                [.imageExists pool img, .lockImage pool img,
                  .renameImage pool img ("zz_" ++ img),
                  .unlockImage pool img locker])
            | none =>
              (.ok (), regErase st mnt,
                [.imageExists pool img, .lockImage pool img,
                  .renameImage pool img ("zz_" ++ img),
                  .unlockImage pool ("zz_" ++ img) locker])
          else
            (.ok (), regErase st mnt,
              [.imageExists pool img, .lockImage pool img,
                .unlockImage pool img locker])

/-- `cephRBDVolumeDriver.Get`: parse, check existence (a missing
image drops any stale registry entry and is a not-found error), else
report the mountpoint when registered. -/
def Get (cfg : Config) (infoRes : Except ShErr String) (st : Registry)
    (name : String) : Except String (String × String) × Registry :=
  match parseImagePoolNameSize cfg name with
  | .error e => (.error e, st)
  | .ok (pool, img, _) =>
    match rbdImageExists infoRes with
    | (_, some e) => (.error (shErrMessage e), st)
    | (ex, none) =>
      let mnt := mountpoint cfg.root pool img
      if ¬ ex then
        (.error ("Image " ++ name ++ " does not exist"), regErase st mnt)
      else
        match regFind st mnt with
        | some _ => (.ok (name, mnt), st)
        | none => (.ok (name, ""), st)

/-! ## Shell runner (`sh`, `shWithTimeout`) -/

/-- Result classification of one `shWithTimeout` invocation. -/
inductive ShRunnerErr where
  | badDuration (msg : String)
  | timeout
  | cmd (msg : String)
deriving DecidableEq, Repr

/-- Behaviour of the external command: its raw stdout, its Go error,
and whether it finishes before the deadline. -/
structure CmdBehavior where
  rawOut : String
  err : Option String
  finishesInTime : Bool
deriving DecidableEq, Repr

/-- `strings.Trim(s, " \n")`: strip leading and trailing spaces and
newlines. -/
def goTrim (s : List Char) : List Char :=
  ((s.dropWhile (fun c => c = ' ' || c = '\n')).reverse.dropWhile
    (fun c => c = ' ' || c = '\n')).reverse

/-- `sh`: run the command and return its trimmed stdout together with
the Go error. -/
def sh (b : CmdBehavior) : String × Option String :=
  (String.mk (goTrim b.rawOut.data), b.err)

/-- `shWithTimeout`: reject non-positive timeouts before spawning the
command, then either relay the command's result or report the typed
timeout error when the deadline elapses first.  The boolean records
whether the command was actually spawned. -/
def shWithTimeout (howLong : Int) (b : CmdBehavior) :
    (String × Option ShRunnerErr) × Bool :=
  if howLong ≤ 0 then
    (("", some (.badDuration "Timeout duration needs to be positive")), false)
  else if b.finishesInTime then
    (((sh b).1, ((sh b).2).map .cmd), true)
  else
    (("", some .timeout), true)

/-! ## Claim theorems: Unmount -/

/-- C3: an Unmount whose computed mountpoint is absent from the
Registry succeeds silently: no BlockOps calls are issued and the
Registry is unchanged. -/
theorem unmount_absent_noop (cfg : Config) (env : UnmountEnv) (st : Registry)
    (name id pool img : String) (sz : Int)
    (hp : parseImagePoolNameSize cfg name = .ok (pool, img, sz))
    (habs : regFind st (mountpoint cfg.root pool img) = none) :
    Unmount cfg env st name id = (.ok (), st, []) := by
  unfold Unmount
  rw [hp]
  simp only [habs]

/-- Witness for C3 at a concrete request against an empty registry. -/
theorem unmount_absent_noop_witness :
    Unmount ⟨"rbd", "/vol", 20480, "xfs", false, "ignore", "host1"⟩
      ⟨none, none, none⟩ [] "foo" "c1" = (.ok (), [], []) :=
  unmount_absent_noop _ _ _ "foo" "c1" "rbd" "foo" 20480 rfl rfl

/-- C4: an Unmount whose Registry record was recorded under a
different client ID is a no-op: success, no BlockOps calls, Registry
entry left in place. -/
theorem unmount_mismatched_id_noop (cfg : Config) (env : UnmountEnv)
    (st : Registry) (name id pool img : String) (sz : Int) (vol : Volume)
    (hp : parseImagePoolNameSize cfg name = .ok (pool, img, sz))
    (hfind : regFind st (mountpoint cfg.root pool img) = some vol)
    (hid : vol.ID ≠ id) :
    Unmount cfg env st name id = (.ok (), st, []) := by
  unfold Unmount
  rw [hp]
  simp only [hfind]
  rw [if_pos hid]

/-- Witness for C4: a mounted volume recorded under client `c1`
survives an Unmount from client `c2` untouched. -/
theorem unmount_mismatched_id_noop_witness :
    Unmount ⟨"rbd", "/vol", 20480, "xfs", false, "ignore", "host1"⟩
      ⟨none, none, none⟩
      [("/vol/rbd/foo", ⟨"foo", "/dev/rbd1", "host1", "xfs", "rbd", "c1"⟩)]
      "foo" "c2"
    = (.ok (),
        [("/vol/rbd/foo", ⟨"foo", "/dev/rbd1", "host1", "xfs", "rbd", "c1"⟩)],
        []) :=
  unmount_mismatched_id_noop _ _ _ "foo" "c2" "rbd" "foo" 20480
    ⟨"foo", "/dev/rbd1", "host1", "xfs", "rbd", "c1"⟩ rfl rfl (by decide)

/-- C2: when `rbd unmap` fails busy (`exit status 16`) during an
Unmount whose record matched the client ID, the error is returned at
once: unlock is not called and the Registry entry is not removed. -/
theorem unmount_busy_aborts (cfg : Config) (env : UnmountEnv) (st : Registry)
    (name id pool img : String) (sz : Int) (vol : Volume) (e : ShErr)
    (hp : parseImagePoolNameSize cfg name = .ok (pool, img, sz))
    (hfind : regFind st (mountpoint cfg.root pool img) = some vol)
    (hid : vol.ID = id)
    (hunmap : env.unmapRes = some e)
    (hbusy : shErrMessage e = "exit status 16") :
    Unmount cfg env st name id =
      (.error "exit status 16", st,
        [.unmountDevice vol.Device, .unmapDevice vol.Device]) := by
  unfold Unmount
  rw [hp]
  simp only [hfind]
  rw [if_neg (by simp [hid]), hunmap]
  simp [hbusy]

/-- Witness for C2: a busy unmap on a matching record returns the
busy error, keeps the record, and never unlocks. -/
theorem unmount_busy_aborts_witness :
    Unmount ⟨"rbd", "/vol", 20480, "xfs", false, "ignore", "host1"⟩
      ⟨none, some (.other "exit status 16"), none⟩
      [("/vol/rbd/foo", ⟨"foo", "/dev/rbd1", "host1", "xfs", "rbd", "c1"⟩)]
      "foo" "c1"
    = (.error "exit status 16",
        [("/vol/rbd/foo", ⟨"foo", "/dev/rbd1", "host1", "xfs", "rbd", "c1"⟩)],
        [.unmountDevice "/dev/rbd1", .unmapDevice "/dev/rbd1"]) :=
  unmount_busy_aborts _ _ _ "foo" "c1" "rbd" "foo" 20480
    ⟨"foo", "/dev/rbd1", "host1", "xfs", "rbd", "c1"⟩ (.other "exit status 16")
    rfl rfl rfl rfl rfl

/-! ## Claim theorems: Mount failure compensation -/

/-- C1 counterexample: a Mount in which lock and map succeed and the
final mount step fails issues its compensations as unlock-the-image
followed by unmap-the-device; the reverse order claimed by the spec
(unmap, then unlock) is not a suffix of the issued trace. -/
theorem mount_compensation_order_cex :
    (Mount ⟨"rbd", "/vol", 20480, "xfs", false, "ignore", "host1"⟩
        ⟨none, ("/dev/rbd1", none), ("ext4", none), ⟨none, none, none, none⟩,
          none, some (.other "mount failed")⟩
        [] "foo" "c1").2.2
      = [.lockImage "rbd" "foo", .mapImage "rbd" "foo",
          .detectFSType "/dev/rbd1", .mkdirAll "/vol/rbd/foo",
          .mountDevice "ext4" "/dev/rbd1" "/vol/rbd/foo",
          .unlockImage "rbd" "foo" "host1", .unmapDevice "/dev/rbd1"]
    ∧ ¬ [BOp.unmapDevice "/dev/rbd1", BOp.unlockImage "rbd" "foo" "host1"] <:+
        (Mount ⟨"rbd", "/vol", 20480, "xfs", false, "ignore", "host1"⟩
          ⟨none, ("/dev/rbd1", none), ("ext4", none), ⟨none, none, none, none⟩,
            none, some (.other "mount failed")⟩
          [] "foo" "c1").2.2 :=
  ⟨rfl, by decide⟩

/-- C1 (amended): when some Mount pipeline step fails after lock and
map succeeded, Mount returns an error, the Registry is unchanged (in
particular it gains no entry for the mountpoint), and both
compensations are issued — but in the LIFO order of the deferred
calls, unlock the image then unmap the device, not in reverse order
of the forward sequence. -/
theorem mount_failure_compensation (cfg : Config) (env : MountEnv)
    (st : Registry) (name id pool img out : String) (sz : Int) (msg : String)
    (hp : parseImagePoolNameSize cfg name = .ok (pool, img, sz))
    (hl : env.lockRes = none)
    (hm : env.mapRes = (out, none))
    (herr : (Mount cfg env st name id).1 = .error msg) :
    (Mount cfg env st name id).2.1 = st ∧
    ∃ pre, (Mount cfg env st name id).2.2 =
      pre ++ [.unlockImage pool img cfg.hostname,
        .unmapDevice (mapImageDevice out pool img)] := by
  unfold Mount at herr ⊢
  rw [hp] at herr ⊢
  simp only [hl, hm] at herr ⊢
  cases hvr : (verifyDeviceFilesystem env.verify (mapImageDevice out pool img)
      (mountpoint cfg.root pool img) (mountFstype cfg env)).1 with
  | some e =>
    simp only [hvr] at herr ⊢
    exact ⟨by trivial,
      [.lockImage pool img, .mapImage pool img,
        .detectFSType (mapImageDevice out pool img)] ++
        (verifyDeviceFilesystem env.verify (mapImageDevice out pool img)
          (mountpoint cfg.root pool img) (mountFstype cfg env)).2, rfl⟩
  | none =>
    simp only [hvr] at herr ⊢
    cases hmk : env.mkdirRes with
    | some e2 =>
      simp only [hmk] at herr ⊢
      refine ⟨by trivial,
        ([.lockImage pool img, .mapImage pool img,
          .detectFSType (mapImageDevice out pool img)] ++
          (verifyDeviceFilesystem env.verify (mapImageDevice out pool img)
            (mountpoint cfg.root pool img) (mountFstype cfg env)).2)
          ++ [.mkdirAll (mountpoint cfg.root pool img)], ?_⟩
      simp
    | none =>
      simp only [hmk] at herr ⊢
      cases hmt : env.mountRes with
      | some e3 =>
        simp only [hmt] at herr ⊢
        refine ⟨by trivial,
          ([.lockImage pool img, .mapImage pool img,
            .detectFSType (mapImageDevice out pool img)] ++
            (verifyDeviceFilesystem env.verify (mapImageDevice out pool img)
              (mountpoint cfg.root pool img) (mountFstype cfg env)).2)
            ++ [.mkdirAll (mountpoint cfg.root pool img),
              .mountDevice (mountFstype cfg env) (mapImageDevice out pool img)
                (mountpoint cfg.root pool img)], ?_⟩
        simp
      | none =>
        simp only [hmt] at herr
        exact absurd herr (by simp)

/-- Witness for C1 (amended) at the concrete failing-mount input of
the counterexample. -/
theorem mount_failure_compensation_witness :
    (Mount ⟨"rbd", "/vol", 20480, "xfs", false, "ignore", "host1"⟩
        ⟨none, ("/dev/rbd1", none), ("ext4", none), ⟨none, none, none, none⟩,
          none, some (.other "mount failed")⟩
        [] "foo" "c1").2.1 = ([] : Registry) ∧
    ∃ pre, (Mount ⟨"rbd", "/vol", 20480, "xfs", false, "ignore", "host1"⟩
        ⟨none, ("/dev/rbd1", none), ("ext4", none), ⟨none, none, none, none⟩,
          none, some (.other "mount failed")⟩
        [] "foo" "c1").2.2 =
      pre ++ [.unlockImage "rbd" "foo" "host1", .unmapDevice "/dev/rbd1"] :=
  mount_failure_compensation _ _ _ "foo" "c1" "rbd" "foo" "/dev/rbd1" 20480
    "Unable to mount device" rfl rfl rfl rfl

/-! ## Claim theorems: filesystem verification -/

/-- C6 counterexample: when the `xfs_repair -n` probe times out, the
verification returns the timeout error — it is *not* treated as
recoverable — and the surrounding Mount fails with the
filesystem-errors message. -/
theorem verify_timeout_fails_mount_cex :
    (verifyDeviceFilesystem ⟨some .timeout, none, none, none⟩
        "/dev/rbd1" "/vol/rbd/foo" "xfs").1 = some .timeout
    ∧ (Mount ⟨"rbd", "/vol", 20480, "xfs", false, "ignore", "host1"⟩
        ⟨none, ("/dev/rbd1", none), ("xfs", none),
          ⟨some .timeout, none, none, none⟩, none, none⟩
        [] "foo" "c1").1
      = .error "Image filesystem has errors, requires manual repairs" :=
  ⟨rfl, rfl⟩

/-- C6 (amended): for an xfs device, a `ShTimeoutError` from the
read-only repair probe is propagated — the verification fails and the
Mount fails with it; only a non-timeout probe error (corruption) is
followed by the limited repair: a mount+unmount cycle and a re-probe
whose result decides the verification. -/
theorem verify_xfs_timeout_and_repair (dev mnt : String) (vA vB : VerifyEnv)
    (m : String) (cfg : Config) (envA : MountEnv) (st : Registry)
    (name id pool img out : String) (sz : Int)
    (h1 : vA.probe1 = some .timeout)
    (hp : parseImagePoolNameSize cfg name = .ok (pool, img, sz))
    (hl : envA.lockRes = none)
    (hm : envA.mapRes = (out, none))
    (hverify : envA.verify = vA)
    (hfs : mountFstype cfg envA = "xfs")
    (h2 : vB.probe1 = some (.other m))
    (h3 : vB.repairMount = none)
    (h4 : vB.repairUnmount = none) :
    verifyDeviceFilesystem vA dev mnt "xfs"
        = (some .timeout, [.xfsRepairDryRun dev])
    ∧ (Mount cfg envA st name id).1
        = .error "Image filesystem has errors, requires manual repairs"
    ∧ verifyDeviceFilesystem vB dev mnt "xfs"
        = (vB.probe2,
            [.xfsRepairDryRun dev, .mountDevice "xfs" dev mnt,
              .unmountDevice dev, .xfsRepairDryRun dev]) := by
  refine ⟨?_, ?_, ?_⟩
  · simp [verifyDeviceFilesystem, h1]
  · unfold Mount
    rw [hp]
    simp only [hl, hm, hverify, hfs]
    simp [verifyDeviceFilesystem, h1]
  · simp [verifyDeviceFilesystem, attemptLimitedXFSRepair, h2, h3, h4]

/-- Witness for C6 (amended) at concrete probe outcomes. -/
theorem verify_xfs_timeout_and_repair_witness :
    verifyDeviceFilesystem ⟨some .timeout, none, none, none⟩
        "/dev/rbd1" "/vol/rbd/foo" "xfs"
      = (some .timeout, [.xfsRepairDryRun "/dev/rbd1"])
    ∧ (Mount ⟨"rbd", "/vol", 20480, "xfs", false, "ignore", "host1"⟩
        ⟨none, ("/dev/rbd1", none), ("xfs", none),
          ⟨some .timeout, none, none, none⟩, none, none⟩
        [] "foo" "c1").1
      = .error "Image filesystem has errors, requires manual repairs"
    ∧ verifyDeviceFilesystem
        ⟨some (.other "corruption detected"), none, none,
          some (.other "still corrupt")⟩
        "/dev/rbd1" "/vol/rbd/foo" "xfs"
      = (some (.other "still corrupt"),
          [.xfsRepairDryRun "/dev/rbd1",
            .mountDevice "xfs" "/dev/rbd1" "/vol/rbd/foo",
            .unmountDevice "/dev/rbd1", .xfsRepairDryRun "/dev/rbd1"]) :=
  verify_xfs_timeout_and_repair "/dev/rbd1" "/vol/rbd/foo"
    ⟨some .timeout, none, none, none⟩
    ⟨some (.other "corruption detected"), none, none,
      some (.other "still corrupt")⟩
    "corruption detected"
    ⟨"rbd", "/vol", 20480, "xfs", false, "ignore", "host1"⟩
    ⟨none, ("/dev/rbd1", none), ("xfs", none),
      ⟨some .timeout, none, none, none⟩, none, none⟩
    [] "foo" "c1" "rbd" "foo" "/dev/rbd1" 20480
    rfl rfl rfl rfl rfl rfl rfl rfl rfl

/-! ## Claim theorems: Create -/

theorem createRBDImage_no_mountDevice (env : CreateImageEnv) (cfg : Config)
    (pool nm : String) (size : Int) (fstype : String) (f d mn : String)
    (res : Option String × List BOp)
    (h : createRBDImage env cfg pool nm size fstype = res) :
    BOp.mountDevice f d mn ∉ res.2 := by
  subst h
  unfold createRBDImage
  repeat' split
  all_goals simp

theorem create_registry_unchanged (cfg : Config) (env : CreateEnv)
    (st : Registry) (name : String) (opts : CreateOpts) :
    (Create cfg env st name opts).2.1 = st := by
  unfold Create
  dsimp only
  repeat' split
  all_goals rfl

theorem create_no_mountDevice (cfg : Config) (env : CreateEnv) (st : Registry)
    (name : String) (opts : CreateOpts) (f d mn : String) :
    BOp.mountDevice f d mn ∉ (Create cfg env st name opts).2.2 := by
  unfold Create
  dsimp only
  repeat' split
  all_goals simp
  all_goals rename_i heq h
  all_goals simpa using createRBDImage_no_mountDevice _ _ _ _ _ _ f d mn _ heq

/-- C7: a Create never mounts a device and never touches the
Registry; when the image does not exist (here: the `rbd info` probe
failed) and creation is disallowed, it fails with the not-found
message. -/
theorem create_not_found_and_frame (cfg : Config) (env : CreateEnv)
    (st : Registry) (name : String) (opts : CreateOpts) (cfg2 : Config)
    (env2 : CreateEnv) (st2 : Registry) (name2 : String) (opts2 : CreateOpts)
    (pool img : String) (sz : Int) (e : ShErr)
    (hp : parseImagePoolNameSize cfg2 name2 = .ok (pool, img, sz))
    (hop : opts2.pool = "")
    (hfind : regFind st2 (mountpoint cfg2.root pool img) = none)
    (hinfo : env2.infoRes = .error e)
    (hcc : cfg2.canCreateVolumes = false) :
    (Create cfg env st name opts).2.1 = st
    ∧ (∀ f d mn, BOp.mountDevice f d mn ∉ (Create cfg env st name opts).2.2)
    ∧ (Create cfg2 env2 st2 name2 opts2).1
        = .error ("Ceph RBD Image not found: " ++ img) := by
  refine ⟨create_registry_unchanged cfg env st name opts,
    fun f d mn => create_no_mountDevice cfg env st name opts f d mn, ?_⟩
  unfold Create
  rw [hp]
  simp only [hop]
  simp [hfind, rbdImageExists, hinfo, hcc]

/-- Witness for C7: with `canCreate=false` and the image absent,
Create reports not-found and leaves an empty registry empty. -/
theorem create_not_found_and_frame_witness :
    (Create ⟨"rbd", "/vol", 20480, "xfs", false, "ignore", "host1"⟩
        ⟨.error (.other "rbd info failed"),
          ⟨none, none, none, ("", none), none, none, none⟩⟩
        [] "foo" ⟨"", "", ""⟩).2.1 = ([] : Registry)
    ∧ (∀ f d mn, BOp.mountDevice f d mn ∉
        (Create ⟨"rbd", "/vol", 20480, "xfs", false, "ignore", "host1"⟩
          ⟨.error (.other "rbd info failed"),
            ⟨none, none, none, ("", none), none, none, none⟩⟩
          [] "foo" ⟨"", "", ""⟩).2.2)
    ∧ (Create ⟨"rbd", "/vol", 20480, "xfs", false, "ignore", "host1"⟩
        ⟨.error (.other "rbd info failed"),
          ⟨none, none, none, ("", none), none, none, none⟩⟩
        [] "foo" ⟨"", "", ""⟩).1
      = .error "Ceph RBD Image not found: foo" :=
  create_not_found_and_frame
    ⟨"rbd", "/vol", 20480, "xfs", false, "ignore", "host1"⟩
    ⟨.error (.other "rbd info failed"),
      ⟨none, none, none, ("", none), none, none, none⟩⟩
    [] "foo" ⟨"", "", ""⟩
    ⟨"rbd", "/vol", 20480, "xfs", false, "ignore", "host1"⟩
    ⟨.error (.other "rbd info failed"),
      ⟨none, none, none, ("", none), none, none, none⟩⟩
    [] "foo" ⟨"", "", ""⟩
    "rbd" "foo" 20480 (.other "rbd info failed")
    rfl rfl rfl rfl rfl

/-! ## Claim theorems: Remove (rename action) -/

/-- C8: a Remove that reaches the action branch with remove action
`rename` renames the image to `zz_` prepended to its old name; the
deferred unlock is issued under the new `zz_` name exactly when the
rename succeeded, and under the old name when it failed. -/
theorem remove_rename_unlock_name (cfg : Config) (env : RemoveEnv)
    (st : Registry) (name pool img : String) (sz : Int) (o : String)
    (hp : parseImagePoolNameSize cfg name = .ok (pool, img, sz))
    (hinfo : env.infoRes = .ok o)
    (hlock : env.lockRes = none)
    (hact : cfg.removeActionFlag = "rename") :
    Remove cfg env st name =
      ((match env.renameRes with
          | none => .ok ()
          | some e => .error ("Unable to rename with zz_ prefix: RBD Image("
              ++ img ++ "): " ++ shErrMessage e)),
        (match env.renameRes with
          | none => regErase st (mountpoint cfg.root pool img)
          | some _ => st),
        [.imageExists pool img, .lockImage pool img,
          .renameImage pool img ("zz_" ++ img),
          .unlockImage pool
            (match env.renameRes with
              | none => "zz_" ++ img
              | some _ => img) cfg.hostname]) := by
  unfold Remove
  rw [hp]
  simp only [rbdImageExists, hinfo, hlock, hact]
  cases hr : env.renameRes with
  | none => simp
  | some e => simp

/-- Witness for C8: a successful rename issues the unlock under the
`zz_`-prefixed name and returns success. -/
theorem remove_rename_unlock_name_witness :
    Remove ⟨"rbd", "/vol", 20480, "xfs", false, "rename", "host1"⟩
      ⟨.ok "image info", none, none, none, none⟩
      [("/vol/rbd/foo", ⟨"foo", "/dev/rbd1", "host1", "xfs", "rbd", "c1"⟩)]
      "foo"
    = (.ok (), [],
        [.imageExists "rbd" "foo", .lockImage "rbd" "foo",
          .renameImage "rbd" "foo" "zz_foo",
          .unlockImage "rbd" "zz_foo" "host1"]) :=
  remove_rename_unlock_name
    ⟨"rbd", "/vol", 20480, "xfs", false, "rename", "host1"⟩
    ⟨.ok "image info", none, none, none, none⟩
    [("/vol/rbd/foo", ⟨"foo", "/dev/rbd1", "host1", "xfs", "rbd", "c1"⟩)]
    "foo" "rbd" "foo" 20480 "image info" rfl rfl rfl rfl

/-! ## Claim theorems: shell runner -/

/-- C9: the shell runner rejects a non-positive timeout with an
argument-validation error before spawning the command, returns the
typed timeout error (distinct from command and validation errors)
when the deadline elapses first, and otherwise relays the command's
trimmed stdout or its underlying error. -/
theorem shWithTimeout_spec (d1 d2 d3 d4 : Int)
    (b1 b2 b3 b4 : CmdBehavior) (e : String)
    (h1 : d1 ≤ 0)
    (h2 : 0 < d2) (h2b : b2.finishesInTime = false)
    (h3 : 0 < d3) (h3b : b3.finishesInTime = true) (h3e : b3.err = none)
    (h4 : 0 < d4) (h4b : b4.finishesInTime = true) (h4e : b4.err = some e) :
    shWithTimeout d1 b1
        = (("", some (.badDuration "Timeout duration needs to be positive")),
          false)
    ∧ shWithTimeout d2 b2 = (("", some .timeout), true)
    ∧ shWithTimeout d3 b3 = ((String.mk (goTrim b3.rawOut.data), none), true)
    ∧ shWithTimeout d4 b4
        = ((String.mk (goTrim b4.rawOut.data), some (.cmd e)), true)
    ∧ (∀ m, ShRunnerErr.timeout ≠ .cmd m)
    ∧ (∀ m, ShRunnerErr.timeout ≠ .badDuration m) := by
  refine ⟨?_, ?_, ?_, ?_, fun m => by simp, fun m => by simp⟩
  · simp [shWithTimeout, h1]
  · simp [shWithTimeout, h2b, not_le.mpr h2]
  · simp [shWithTimeout, sh, h3b, h3e, not_le.mpr h3]
  · simp [shWithTimeout, sh, h4b, h4e, not_le.mpr h4]

/-- Witness for C9 at concrete durations and command behaviours. -/
theorem shWithTimeout_spec_witness :
    shWithTimeout 0 ⟨"out", none, true⟩
        = (("", some (.badDuration "Timeout duration needs to be positive")),
          false)
    ∧ shWithTimeout 120 ⟨"out", none, false⟩ = (("", some .timeout), true)
    ∧ shWithTimeout 120 ⟨" ok\n", none, true⟩
        = ((String.mk (goTrim (String.data " ok\n")), none), true)
    ∧ shWithTimeout 120 ⟨"bad", some "exit status 1", true⟩
        = ((String.mk (goTrim (String.data "bad")),
            some (.cmd "exit status 1")), true)
    ∧ (∀ m, ShRunnerErr.timeout ≠ .cmd m)
    ∧ (∀ m, ShRunnerErr.timeout ≠ .badDuration m) :=
  shWithTimeout_spec 0 120 120 120 ⟨"out", none, true⟩ ⟨"out", none, false⟩
    ⟨" ok\n", none, true⟩ ⟨"bad", some "exit status 1", true⟩ "exit status 1"
    (by decide) (by decide) rfl (by decide) rfl rfl (by decide) rfl rfl

/-! ## Claim theorems: image existence probe -/

/-- C10: `rbdImageExists` never reports an error: any failure of the
underlying `rbd info` call is reported as the image not existing, so
Remove, Create (with creation disallowed) and Get all report
not-found rather than a backend error when the probe fails. -/
theorem rbdImageExists_never_errors (r : Except ShErr String) (e : ShErr)
    (cfg : Config) (envR : RemoveEnv) (envC : CreateEnv)
    (infoG : Except ShErr String) (stR stC stG : Registry)
    (name pool img : String) (sz : Int) (opts : CreateOpts)
    (hr : r = .error e)
    (hp : parseImagePoolNameSize cfg name = .ok (pool, img, sz))
    (hiR : envR.infoRes = .error e)
    (hiC : envC.infoRes = .error e)
    (hiG : infoG = .error e)
    (hop : opts.pool = "")
    (hfC : regFind stC (mountpoint cfg.root pool img) = none)
    (hcc : cfg.canCreateVolumes = false) :
    (∀ r2 : Except ShErr String, (rbdImageExists r2).2 = none)
    ∧ rbdImageExists r = (false, none)
    ∧ (Remove cfg envR stR name).1
        = .error ("Ceph RBD Image not found: " ++ img)
    ∧ (Create cfg envC stC name opts).1
        = .error ("Ceph RBD Image not found: " ++ img)
    ∧ (Get cfg infoG stG name).1
        = .error ("Image " ++ name ++ " does not exist") := by
  refine ⟨fun r2 => ?_, ?_, ?_, ?_, ?_⟩
  · cases r2 <;> rfl
  · rw [hr]
    rfl
  · unfold Remove
    rw [hp]
    simp [rbdImageExists, hiR]
  · unfold Create
    rw [hp]
    simp only [hop]
    simp [hfC, rbdImageExists, hiC, hcc]
  · unfold Get
    rw [hp]
    simp [rbdImageExists, hiG]

/-- Witness for C10 with a failing `rbd info` backend. -/
theorem rbdImageExists_never_errors_witness :
    (∀ r2 : Except ShErr String, (rbdImageExists r2).2 = none)
    ∧ rbdImageExists (.error (.other "rbd: connect timed out"))
        = (false, none)
    ∧ (Remove ⟨"rbd", "/vol", 20480, "xfs", false, "ignore", "host1"⟩
        ⟨.error (.other "rbd: connect timed out"), none, none, none, none⟩
        [] "foo").1
      = .error "Ceph RBD Image not found: foo"
    ∧ (Create ⟨"rbd", "/vol", 20480, "xfs", false, "ignore", "host1"⟩
        ⟨.error (.other "rbd: connect timed out"),
          ⟨none, none, none, ("", none), none, none, none⟩⟩
        [] "foo" ⟨"", "", ""⟩).1
      = .error "Ceph RBD Image not found: foo"
    ∧ (Get ⟨"rbd", "/vol", 20480, "xfs", false, "ignore", "host1"⟩
        (.error (.other "rbd: connect timed out")) [] "foo").1
      = .error "Image foo does not exist" :=
  rbdImageExists_never_errors (.error (.other "rbd: connect timed out"))
    (.other "rbd: connect timed out")
    ⟨"rbd", "/vol", 20480, "xfs", false, "ignore", "host1"⟩
    ⟨.error (.other "rbd: connect timed out"), none, none, none, none⟩
    ⟨.error (.other "rbd: connect timed out"),
      ⟨none, none, none, ("", none), none, none, none⟩⟩
    (.error (.other "rbd: connect timed out"))
    [] [] [] "foo" "rbd" "foo" 20480 ⟨"", "", ""⟩
    rfl rfl rfl rfl rfl rfl rfl rfl

end RbdPlugin
